import Mathlib

/-!
Verification of the SolanaBot position-risk engine: a shallow embedding of
the monitor loop (bot.py), the swap call sites into jupiter.py, the
persistence layer (database.py), the price oracle (data_engine.py) and the
key vault (key_manager.py), with theorems settling the specification's
claims against the code.
-/

namespace SolanaBot

/-- Python exception values, split by hierarchy level: `exception` models
subclasses of Exception (TypeError, KeyError, network and notification
errors, database errors, ...), which an `except Exception` clause catches;
`baseException` models the kinds deriving only from BaseException
(KeyboardInterrupt, asyncio CancelledError), which it does not catch. -/
inductive PyErr where
  | exception (kind : String) (msg : String)
  | baseException (kind : String) (msg : String)
deriving Repr, DecidableEq

/-- Signature of a Python function: its positional-or-keyword parameter
names in order, and the subset of those names that carry a default value.
`execute_swap` in jupiter.py declares no *args or **kwargs, so this shape
captures its signature exactly. -/
structure PyFunc where
  params : List String
  defaults : List String
deriving Repr, DecidableEq

/-- CPython keyword-argument processing: each keyword must name a declared
parameter (else TypeError: unexpected keyword argument) that is not already
bound (else TypeError: multiple values). Returns the bound parameter names. -/
def processKwargs (f : PyFunc) (filled : List String) :
    List String → Except PyErr (List String)
  | [] => Except.ok filled
  | kw :: rest =>
    if f.params.contains kw then
      if filled.contains kw then
        Except.error (PyErr.exception "TypeError" ("multiple values for argument " ++ kw))
      else processKwargs f (filled ++ [kw]) rest
    else Except.error (PyErr.exception "TypeError" ("unexpected keyword argument " ++ kw))

/-- CPython call binding for a call with `npos` positional arguments and the
given keyword names: positionals bind to the leading parameters, keywords are
processed, and every parameter without a default must end up bound
(else TypeError: missing required argument). -/
def bindCall (f : PyFunc) (npos : Nat) (kwargs : List String) :
    Except PyErr (List String) :=
  if f.params.length < npos then
    Except.error (PyErr.exception "TypeError" "too many positional arguments")
  else
    match processKwargs f (f.params.take npos) kwargs with
    | Except.error e => Except.error e
    | Except.ok filled =>
      match (f.params.filter
              (fun p => !(f.defaults.contains p || filled.contains p))).head? with
      | some missing =>
          Except.error (PyErr.exception "TypeError" ("missing required argument " ++ missing))
      | none => Except.ok filled

/-- Signature of `jupiter.execute_swap(keypair, input_mint, output_mint,
amount_lamports, rpc_url, slippage=100)` (jupiter.py line 125). -/
def executeSwapParams : PyFunc :=
  { params := ["keypair", "input_mint", "output_mint", "amount_lamports",
               "rpc_url", "slippage"],
    defaults := ["slippage"] }

/-- The swap call as issued by bot.py (both the auto-sell in
`position_monitor`, line 107, and the buy in `execute_trade`, line 324):
four positional arguments plus the keywords `slippage` and `is_simulation`.
If the binding failed, the TypeError is raised before the function body runs;
otherwise the body (network quote, swap build, sign, broadcast) would run,
modelled here by the `body` argument. -/
def execSwapCallFromBot (body : Except PyErr (Bool × String)) :
    Except PyErr (Bool × String) :=
  match bindCall executeSwapParams 4 ["slippage", "is_simulation"] with
  | Except.error e => Except.error e
  | Except.ok _ => body

/- ## Key vault (key_manager.py) -/

/-- The byte content of the fixed salt literal in `_get_fernet`
(key_manager.py line 11): the bytes of "sentinel_salt_". -/
def sentinelSalt : List Nat :=
  [115, 101, 110, 116, 105, 110, 101, 108, 95, 115, 97, 108, 116, 95]

/-- Model of the PBKDF2-HMAC-SHA256 key derivation used by `_get_fernet`
(cryptography library code, not part of this repository): an executable
stand-in that is a deterministic function of the password, the salt and the
iteration count, which is all the repository-level theorems rely on. -/
def pbkdf2Model (password salt : List Nat) (iterations : Nat) : Nat :=
  (password ++ salt).foldl (fun a b => a * 131 + b + 1) (iterations + 7)

/-- The salt `_get_fernet` feeds to the key derivation when called during
`encrypt_key(private_key)`: the source fixes it to the constant
b"sentinel_salt_" irrespective of the record being encrypted. -/
def encryptSaltUsed (_private_key : List Nat) : List Nat := sentinelSalt

/-- The symmetric key `_get_fernet` derives: PBKDF2 over the module-level
master password and the fixed salt, 100000 iterations (key_manager.py
lines 10-19). Every call derives the same key for the same master password. -/
def get_fernet_key (masterPassword : List Nat) : Nat :=
  pbkdf2Model masterPassword sentinelSalt 100000

/-- Keystream byte `i` of the modelled symmetric cipher; always < 256. -/
def keystream (key iv i : Nat) : Nat :=
  (key + 31 * iv + 17 * i) % 256

/-- Encryption direction of the modelled stream cipher, from index `i`. -/
def streamXform (key iv : Nat) : Nat → List Nat → List Nat
  | _, [] => []
  | i, b :: rest => (b + keystream key iv i) % 256 :: streamXform key iv (i + 1) rest

/-- Decryption direction of the modelled stream cipher, from index `i`. -/
def streamInv (key iv : Nat) : Nat → List Nat → List Nat
  | _, [] => []
  | i, c :: rest =>
      (c + (256 - keystream key iv i)) % 256 :: streamInv key iv (i + 1) rest

/-- Authentication tag of the modelled authenticated cipher: a deterministic
checksum of key, IV and ciphertext. -/
def fernetTag (key iv : Nat) (ct : List Nat) : Nat :=
  ct.foldl (fun a b => a * 257 + b + 3) (key * 1000003 + iv)

/-- A Fernet token: IV, ciphertext bytes, authentication tag. Models the
opaque token string the cryptography library produces. -/
structure FernetToken where
  iv : Nat
  ct : List Nat
  tag : Nat
deriving Repr, DecidableEq

/-- Model of Fernet encryption (library code, not part of this repository):
encrypt the message bytes under the key with a fresh IV and append an
authentication tag over the ciphertext. -/
def fernetEncrypt (key iv : Nat) (msg : List Nat) : FernetToken :=
  { iv := iv, ct := streamXform key iv 0 msg,
    tag := fernetTag key iv (streamXform key iv 0 msg) }

/-- Model of Fernet decryption: verify the authentication tag, then invert
the cipher; a tag mismatch yields `none` (the library raises InvalidToken,
an Exception). -/
def fernetDecrypt (key : Nat) (tok : FernetToken) : Option (List Nat) :=
  if tok.tag = fernetTag key tok.iv tok.ct then
    some (streamInv key tok.iv 0 tok.ct)
  else none

/-- `key_manager.encrypt_key` (lines 21-23): encrypt the private key with the
Fernet instance built from the module master password; `iv` models the random
IV the library draws internally. Note the return value carries no salt. -/
def encrypt_key (masterPassword : List Nat) (iv : Nat) (private_key : List Nat) :
    FernetToken :=
  fernetEncrypt (get_fernet_key masterPassword) iv private_key

/-- `key_manager.decrypt_key` (lines 25-27): decrypt with the Fernet instance
built from the same module master password; `none` models the InvalidToken
exception on a wrong key or corrupted token. -/
def decrypt_key (masterPassword : List Nat) (tok : FernetToken) :
    Option (List Nat) :=
  fernetDecrypt (get_fernet_key masterPassword) tok

/- ## Data model (database.py schema and row shapes) -/

/-- Status column of the trades table: default OPEN, set to CLOSED by
`close_trade`. -/
inductive TradeStatus where
  | OPEN
  | CLOSED
deriving Repr, DecidableEq

/-- A row of the trades table (database.py lines 19-30). -/
structure Trade where
  id : Nat
  user_id : Int
  token_address : String
  amount_sol : ℚ
  entry_price : ℚ
  token_amount : ℚ
  status : TradeStatus
deriving Repr, DecidableEq

/-- A row of the settings table (database.py lines 33-43), with the
column defaults slippage=1.0, auto_buy=0, auto_sell=1, simulation_mode=1,
take_profit=30.0, stop_loss=15.0. -/
structure Settings where
  slippage : ℚ
  auto_buy : Bool
  auto_sell : Bool
  simulation_mode : Bool
  take_profit : ℚ
  stop_loss : ℚ
deriving Repr, DecidableEq

/-- A row of the wallets table (database.py lines 10-16). -/
structure WalletRow where
  user_id : Int
  encrypted_private_key : FernetToken
  public_key : String
deriving Repr, DecidableEq

/-- The triple `database.get_wallet` returns on success:
(user_id, decrypted private key, public_key). -/
abbrev WalletTriple := Int × List Nat × String

/-- `database.close_trade(trade_id)` (lines 118-121): the SQL statement
UPDATE trades SET status = CLOSED WHERE id = trade_id, over a snapshot of
the trades table. -/
def close_trade (trades : List Trade) (trade_id : Nat) : List Trade :=
  trades.map (fun t =>
    if t.id = trade_id then { t with status := TradeStatus.CLOSED } else t)

/-- `database.get_wallet(user_id)` (lines 84-94): fetch the row for the user
(`row` is the fetch result, `none` when no record exists); if a row exists,
try to decrypt the stored private key, returning the triple on success and
`none` when `decrypt_key` raises (the exception is swallowed). -/
def get_wallet (masterPassword : List Nat) (row : Option WalletRow) :
    Option WalletTriple :=
  match row with
  | none => none
  | some r =>
    match decrypt_key masterPassword r.encrypted_private_key with
    | some decrypted_pk => some (r.user_id, decrypted_pk, r.public_key)
    | none => none

/- ## Price oracle (data_engine.py) -/

/-- Initial value of the module-global LAST_KNOWN_PRICE cache
(data_engine.py line 12). -/
def LAST_KNOWN_PRICE_INIT : ℚ := 150

/-- Outcome of the two upstream price providers in one `get_sol_price` call:
`some p` is an HTTP 200 response whose body parsed to the float `p`; `none`
covers a non-200 status, a timeout, a connection error or a parse failure
(all swallowed by the bare `except` clauses). -/
structure PriceEnv where
  jup : Option ℚ
  coingecko : Option ℚ
deriving Repr, DecidableEq

/-- `data_engine.get_sol_price` (lines 14-46): try Jupiter, then CoinGecko;
each success is returned and stored into LAST_KNOWN_PRICE; if both fail,
return the cached LAST_KNOWN_PRICE. Returns (return value, new cache). -/
def get_sol_price (env : PriceEnv) (last_known_price : ℚ) : ℚ × ℚ :=
  match env.jup with
  | some price => (price, price)
  | none =>
    match env.coingecko with
    | some price => (price, price)
    | none => (last_known_price, last_known_price)

/- ## Market data (data_engine.get_market_data) -/

/-- The first element of the pairs array in a DexScreener response, with
every field the code reads modelled as optional exactly where the code
supplies a `.get` default. -/
structure DexPairJson where
  priceUsd : Option ℚ
  liquidityUsd : ℚ
  volume5m : ℚ
  fdv : ℚ
  name : Option String
  symbol : Option String
deriving Repr, DecidableEq

/-- A DexScreener HTTP response: status code and the pairs array
(`[]` models a missing, null or empty "pairs" field, all falsy). -/
structure DexResponse where
  status : Nat
  pairs : List DexPairJson
deriving Repr, DecidableEq

/-- The dictionary `get_market_data` builds from the first pair. -/
structure MarketData where
  priceUsd : ℚ
  liquidityUsd : ℚ
  volume5m : ℚ
  fdv : ℚ
  name : String
  symbol : String
deriving Repr, DecidableEq

/-- `data_engine.get_market_data(ca)` (lines 48-74): `none` for a network
exception (`resp = none`), a non-200 status, or a falsy pairs field;
otherwise build the market dictionary from the first pair, defaulting a
missing priceUsd to 0 (`float(pair.get("priceUsd", 0))`). -/
def get_market_data (resp : Option DexResponse) : Option MarketData :=
  match resp with
  | none => none
  | some r =>
    if r.status ≠ 200 then none
    else
      match r.pairs with
      | [] => none
      | pair :: _ =>
        some { priceUsd := pair.priceUsd.getD 0,
               liquidityUsd := pair.liquidityUsd,
               volume5m := pair.volume5m,
               fdv := pair.fdv,
               name := pair.name.getD "Unknown",
               symbol := pair.symbol.getD "UNK" }

/- ## Monitor loop (bot.py position_monitor) -/

/-- PnL percentage as computed at bot.py lines 95-97: the formula
((curr - entry) / entry) * 100 guarded by `entry_price > 0`, else 0. -/
def pnl_pct (entry_price curr_price : ℚ) : ℚ :=
  if entry_price > 0 then ((curr_price - entry_price) / entry_price) * 100 else 0

/-- The sell-trigger test at bot.py lines 87 and 99: with
tp = take_profit and sl = stop_loss * -1, trigger when
`pnl >= tp or pnl <= sl`. -/
def sellTrigger (take_profit stop_loss entry_price curr_price : ℚ) : Bool :=
  decide (pnl_pct entry_price curr_price ≥ take_profit) ||
  decide (pnl_pct entry_price curr_price ≤ stop_loss * (-1))

/-- What happened to one position in one monitoring cycle. -/
inductive TradeOutcome where
  | skippedNoMarket
  | noTrigger
  | triggeredNoAuto
  | triggeredNoWallet
  | sellFailed
  | soldAndClosed
deriving Repr, DecidableEq

/-- The per-position body of `position_monitor` (bot.py lines 85-127):
skip when market data is unavailable; compute the guarded pnl; on trigger
with auto_sell on and a wallet present, issue the bot's `execute_swap` call
(whose argument binding is `execSwapCallFromBot`), then notify and, on
success, close the trade. `walletLookup`, `notifyRes` and `closeRes` are the
outcomes of the corresponding awaited calls, which may raise; the returned
pair is the position's final row and what happened to it. -/
def tradeStep (walletLookup : Except PyErr (Option WalletTriple))
    (swapBody : Except PyErr (Bool × String))
    (notifyRes : Except PyErr Unit)
    (closeRes : Except PyErr Unit)
    (s : Settings) (market : Option MarketData) (t : Trade) :
    Except PyErr (Trade × TradeOutcome) :=
  match market with
  | none => Except.ok (t, TradeOutcome.skippedNoMarket)
  | some m =>
    if sellTrigger s.take_profit s.stop_loss t.entry_price m.priceUsd then
      if s.auto_sell then
        match walletLookup with
        | Except.error e => Except.error e
        | Except.ok none => Except.ok (t, TradeOutcome.triggeredNoWallet)
        | Except.ok (some _w) =>
          match execSwapCallFromBot swapBody with
          | Except.error e => Except.error e
          | Except.ok (success, _tx_sig) =>
            match notifyRes with
            | Except.error e => Except.error e
            | Except.ok _ =>
              if success then
                match closeRes with
                | Except.error e => Except.error e
                | Except.ok _ =>
                  Except.ok ({ t with status := TradeStatus.CLOSED },
                             TradeOutcome.soldAndClosed)
              else Except.ok (t, TradeOutcome.sellFailed)
      else Except.ok (t, TradeOutcome.triggeredNoAuto)
    else Except.ok (t, TradeOutcome.noTrigger)

/-- The environment of one monitoring cycle: the outcome of every awaited
external call the cycle body makes (database reads, price and market
fetches, the swap body, notification sends, the close write), any of which
may raise any Python error. -/
structure CycleEnv where
  activeTrades : Except PyErr (List Trade)
  solPrice : Except PyErr ℚ
  settingsOf : Int → Except PyErr Settings
  marketOf : String → Except PyErr (Option MarketData)
  walletOf : Int → Except PyErr (Option WalletTriple)
  swapBody : Except PyErr (Bool × String)
  notifyOf : Int → Except PyErr Unit
  closeOf : Nat → Except PyErr Unit

/-- The `for trade in trades` loop of one cycle (bot.py lines 85-127):
fetch the user settings and market data, then run the per-position body;
any raised error propagates out of the loop. -/
def runTrades (env : CycleEnv) : List Trade → Except PyErr Unit
  | [] => Except.ok ()
  | t :: rest =>
    match env.settingsOf t.user_id with
    | Except.error e => Except.error e
    | Except.ok s =>
      match env.marketOf t.token_address with
      | Except.error e => Except.error e
      | Except.ok market =>
        match tradeStep (env.walletOf t.user_id) env.swapBody
                (env.notifyOf t.user_id) (env.closeOf t.id) s market t with
        | Except.error e => Except.error e
        | Except.ok _ => runTrades env rest

/-- The body of the `try` block of one cycle (bot.py lines 80-127):
read the open trades, read the reference price, iterate the positions. -/
def runCycle (env : CycleEnv) : Except PyErr Unit :=
  match env.activeTrades with
  | Except.error e => Except.error e
  | Except.ok trades =>
    match env.solPrice with
    | Except.error e => Except.error e
    | Except.ok _sol_price => runTrades env trades

/-- One iteration of the `while True` loop (bot.py lines 79-130): the cycle
body runs inside `try ... except Exception`, so an Exception-level error is
logged and the loop sleeps and continues, while a BaseException-level error
escapes and terminates the loop task. Returns (loop continues, logged or
escaped error). -/
def monitorIteration (env : CycleEnv) : Bool × Option PyErr :=
  match runCycle env with
  | Except.ok _ => (true, none)
  | Except.error (PyErr.exception k m) => (true, some (PyErr.exception k m))
  | Except.error (PyErr.baseException k m) => (false, some (PyErr.baseException k m))

/-- An external-call outcome is Exception-level: it did not raise a
BaseException-only error such as KeyboardInterrupt or CancelledError. -/
def excLevel {α : Type} : Except PyErr α → Bool
  | Except.error (PyErr.baseException _ _) => false
  | _ => true

/- ## Concrete inputs used by the theorems below -/

/-- The settings row the database creates on first read (database.py
lines 33-43 and 67-70). -/
def defaultSettings : Settings :=
  { slippage := 1, auto_buy := false, auto_sell := true,
    simulation_mode := true, take_profit := 30, stop_loss := 15 }

/-- A DexScreener response with HTTP 200 and a non-empty pairs array whose
first pair carries no priceUsd field. -/
def respMissingPrice : DexResponse :=
  { status := 200,
    pairs := [{ priceUsd := none, liquidityUsd := 5000, volume5m := 120,
                fdv := 20000, name := some "TokenX", symbol := some "TKX" }] }

/-- An open position bought at entry price 1. -/
def tradeEntryOne : Trade :=
  { id := 1, user_id := 7, token_address := "TokenXAddress", amount_sol := 1,
    entry_price := 1, token_amount := 1000, status := TradeStatus.OPEN }

/-- An open position recorded with the invalid entry price 0. -/
def tradeEntryZero : Trade :=
  { id := 3, user_id := 9, token_address := "TokenZAddress", amount_sol := 1,
    entry_price := 0, token_amount := 5, status := TradeStatus.OPEN }

/-- A market snapshot with a live price. -/
def marketDemo : MarketData :=
  { priceUsd := 2, liquidityUsd := 1000, volume5m := 10, fdv := 5000,
    name := "Demo", symbol := "DMO" }

/-- A decrypted wallet triple as `get_wallet` would return it. -/
def walletTripleDemo : WalletTriple := (7, [1, 2, 3], "PubKeyDemo")

/-- A two-row trades table: one CLOSED position and one OPEN position. -/
def demoTrades : List Trade :=
  [{ id := 1, user_id := 7, token_address := "A", amount_sol := 1,
     entry_price := 1, token_amount := 10, status := TradeStatus.CLOSED },
   { id := 2, user_id := 8, token_address := "B", amount_sol := 2,
     entry_price := 2, token_amount := 20, status := TradeStatus.OPEN }]

/-- A wallets-table row holding a key encrypted by `encrypt_key`. -/
def walletRowDemo : WalletRow :=
  { user_id := 42, encrypted_private_key := encrypt_key [5, 6] 3 [9, 8],
    public_key := "PubDemo" }

/-- A cycle environment in which the settings lookup raises a database
exception while one open trade exists. -/
def envWithDbError : CycleEnv :=
  { activeTrades := Except.ok [tradeEntryOne]
    solPrice := Except.ok 150
    settingsOf := fun _ => Except.error (PyErr.exception "OperationalError" "database is locked")
    marketOf := fun _ => Except.ok none
    walletOf := fun _ => Except.ok none
    swapBody := Except.ok (true, "sig")
    notifyOf := fun _ => Except.ok ()
    closeOf := fun _ => Except.ok () }

/- ## Helper lemmas -/

/-- The modelled stream cipher inverts itself on byte lists, from any
starting index. -/
theorem streamInv_streamXform (key iv : Nat) :
    ∀ (i : Nat) (msg : List Nat), (∀ b ∈ msg, b < 256) →
      streamInv key iv i (streamXform key iv i msg) = msg := by
  intro i msg
  induction msg generalizing i with
  | nil => intro _; rfl
  | cons b rest ih =>
    intro h
    have hb : b < 256 := h b (List.mem_cons_self b rest)
    have hk : keystream key iv i < 256 := by unfold keystream; omega
    simp only [streamXform, streamInv, List.cons.injEq]
    refine ⟨by omega, ih (i + 1) (fun x hx => h x (List.mem_cons_of_mem b hx))⟩

/-- The swap call issued by bot.py never raises a BaseException-level
error: its argument binding fails with a TypeError, an Exception. -/
theorem excLevel_execSwapCallFromBot (body : Except PyErr (Bool × String)) :
    excLevel (execSwapCallFromBot body) = true := rfl

/-- The per-position monitor body only raises Exception-level errors when
its awaited calls do. -/
theorem excLevel_tradeStep (wl : Except PyErr (Option WalletTriple))
    (sb : Except PyErr (Bool × String)) (nr cr : Except PyErr Unit)
    (s : Settings) (market : Option MarketData) (t : Trade)
    (hwl : excLevel wl = true) :
    excLevel (tradeStep wl sb nr cr s market t) = true := by
  cases market with
  | none => rfl
  | some m =>
    simp only [tradeStep]
    split
    · split
      · cases wl with
        | error e =>
          cases e with
          | exception kind msg => rfl
          | baseException kind msg => exact absurd hwl (by simp [excLevel])
        | ok ow =>
          cases ow with
          | none => rfl
          | some w =>
            have hswap : execSwapCallFromBot sb
                = Except.error (PyErr.exception "TypeError"
                    "unexpected keyword argument is_simulation") := rfl
            rw [hswap]
            rfl
      · rfl
    · rfl

/-- The per-cycle position loop only raises Exception-level errors when the
environment's calls do. -/
theorem excLevel_runTrades (env : CycleEnv)
    (h3 : ∀ u, excLevel (env.settingsOf u) = true)
    (h4 : ∀ a, excLevel (env.marketOf a) = true)
    (h5 : ∀ u, excLevel (env.walletOf u) = true) :
    ∀ trades, excLevel (runTrades env trades) = true := by
  intro trades
  induction trades with
  | nil => rfl
  | cons t rest ih =>
    simp only [runTrades]
    split
    next e heq =>
      cases e with
      | exception kind msg => rfl
      | baseException kind msg =>
        have hthis := h3 t.user_id
        rw [heq] at hthis
        exact absurd hthis (by simp [excLevel])
    next s heq =>
      split
      next e heq2 =>
        cases e with
        | exception kind msg => rfl
        | baseException kind msg =>
          have hthis := h4 t.token_address
          rw [heq2] at hthis
          exact absurd hthis (by simp [excLevel])
      next market heq2 =>
        split
        next e heq3 =>
          have hgood := excLevel_tradeStep (env.walletOf t.user_id) env.swapBody
            (env.notifyOf t.user_id) (env.closeOf t.id) s market t (h5 t.user_id)
          rw [heq3] at hgood
          cases e with
          | exception kind msg => rfl
          | baseException kind msg => exact absurd hgood (by simp [excLevel])
        next res heq3 => exact ih

/-- The whole cycle body only raises Exception-level errors when the
environment's calls do. -/
theorem excLevel_runCycle (env : CycleEnv)
    (h1 : excLevel env.activeTrades = true)
    (h2 : excLevel env.solPrice = true)
    (h3 : ∀ u, excLevel (env.settingsOf u) = true)
    (h4 : ∀ a, excLevel (env.marketOf a) = true)
    (h5 : ∀ u, excLevel (env.walletOf u) = true) :
    excLevel (runCycle env) = true := by
  simp only [runCycle]
  split
  next e heq =>
    cases e with
    | exception kind msg => rfl
    | baseException kind msg =>
      rw [heq] at h1
      exact absurd h1 (by simp [excLevel])
  next trades heq =>
    split
    next e heq2 =>
      cases e with
      | exception kind msg => rfl
      | baseException kind msg =>
        rw [heq2] at h2
        exact absurd h2 (by simp [excLevel])
    next sp heq2 => exact excLevel_runTrades env h3 h4 h5 trades

/- ## Claim theorems -/

/-- Claim C1. The spec requires that with simulation_mode=true a buy or
auto-sell makes no network call and returns a synthetic success transaction
id, enforced at the outer caller of the swap function. The code does not do
this: both call sites in bot.py pass four positional arguments plus the
keywords slippage and is_simulation to jupiter.execute_swap, whose signature
has no is_simulation parameter (and whose required rpc_url argument is not
supplied), so the call raises a TypeError before any body code runs,
whatever the simulation_mode value, and no synthetic identifier is ever
returned; no simulation short-circuit exists in the caller either. -/
theorem C1_simulation_swap_call_raises_type_error :
    bindCall executeSwapParams 4 ["slippage", "is_simulation"]
      = Except.error (PyErr.exception "TypeError"
          "unexpected keyword argument is_simulation")
    ∧ (∀ body, execSwapCallFromBot body
      = Except.error (PyErr.exception "TypeError"
          "unexpected keyword argument is_simulation"))
    ∧ bindCall executeSwapParams 4 ["slippage"]
      = Except.error (PyErr.exception "TypeError"
          "missing required argument rpc_url") :=
  ⟨rfl, fun _ => rfl, rfl⟩

/-- Claim C2. For entry_price > 0 and positive take-profit and stop-loss
settings, the monitor's sell trigger fires exactly when
pnl_pct = (curr - entry) / entry * 100 is ≥ take_profit or ≤ -stop_loss,
with both boundaries inclusive, and never fires strictly between them. -/
theorem C2_trigger_boundary (entry curr tp sl : ℚ)
    (hentry : 0 < entry) (htp : 0 < tp) (hsl : 0 < sl) :
    (sellTrigger tp sl entry curr = true ↔
      ((curr - entry) / entry * 100 ≥ tp ∨ (curr - entry) / entry * 100 ≤ -sl))
    ∧ ((curr - entry) / entry * 100 = tp → sellTrigger tp sl entry curr = true)
    ∧ ((curr - entry) / entry * 100 = -sl → sellTrigger tp sl entry curr = true)
    ∧ ((-sl < (curr - entry) / entry * 100 ∧ (curr - entry) / entry * 100 < tp) →
        sellTrigger tp sl entry curr = false) := by
  have hpnl : pnl_pct entry curr = (curr - entry) / entry * 100 := by
    simp [pnl_pct, hentry]
  have hiff : sellTrigger tp sl entry curr = true ↔
      ((curr - entry) / entry * 100 ≥ tp ∨ (curr - entry) / entry * 100 ≤ -sl) := by
    simp [sellTrigger, hpnl, mul_neg_one]
  refine ⟨hiff, ?_, ?_, ?_⟩
  · intro h
    exact hiff.mpr (Or.inl (le_of_eq h.symm))
  · intro h
    exact hiff.mpr (Or.inr (le_of_eq h))
  · rintro ⟨h1, h2⟩
    cases hts : sellTrigger tp sl entry curr with
    | false => rfl
    | true =>
      rcases hiff.mp hts with h | h
      · linarith
      · linarith

/-- Witness for C2 at the spec's own example: entry 1, current 1.30,
take_profit 30, stop_loss 15 triggers the take-profit boundary. -/
theorem C2_trigger_boundary_witness :
    (0 : ℚ) < 1 ∧ sellTrigger 30 15 1 (13 / 10) = true := by
  have h := C2_trigger_boundary 1 (13 / 10) 30 15 (by norm_num) (by norm_num)
    (by norm_num)
  exact ⟨by norm_num, h.1.mpr (Or.inl (by norm_num))⟩

/-- Claim C3. The spec says missing price data is never interpreted as a
price of zero and never triggers a stop-loss sell. The code violates this:
a DexScreener response with HTTP 200 and a non-empty pairs array whose
first pair lacks the priceUsd field passes the `if not market` guard and is
turned into priceUsd = 0 by `float(pair.get("priceUsd", 0))`; for an open
position with entry price 1 and the default 30/15 thresholds the monitor
then computes pnl = -100 and enters the stop-loss sell branch (where the
attempted swap call raises the independent TypeError of claim C1) instead
of skipping the position unchanged. -/
theorem C3_missing_price_treated_as_zero :
    (get_market_data (some respMissingPrice)).map MarketData.priceUsd = some 0
    ∧ pnl_pct 1 0 = -100
    ∧ sellTrigger 30 15 1 0 = true
    ∧ tradeStep (Except.ok (some walletTripleDemo)) (Except.ok (true, "sig"))
        (Except.ok ()) (Except.ok ()) defaultSettings
        (get_market_data (some respMissingPrice)) tradeEntryOne
      ≠ Except.ok (tradeEntryOne, TradeOutcome.skippedNoMarket)
    ∧ tradeStep (Except.ok (some walletTripleDemo)) (Except.ok (true, "sig"))
        (Except.ok ()) (Except.ok ()) defaultSettings
        (get_market_data (some respMissingPrice)) tradeEntryOne
      = Except.error (PyErr.exception "TypeError"
          "unexpected keyword argument is_simulation") := by
  have hpnl : pnl_pct 1 0 = -100 := by norm_num [pnl_pct]
  have htrig : sellTrigger 30 15 1 0 = true := by
    simp only [sellTrigger, hpnl, Bool.or_eq_true, decide_eq_true_eq]
    right
    norm_num
  have hmkt : get_market_data (some respMissingPrice)
      = some { priceUsd := 0, liquidityUsd := 5000, volume5m := 120,
               fdv := 20000, name := "TokenX", symbol := "TKX" } := rfl
  have hstep : tradeStep (Except.ok (some walletTripleDemo))
      (Except.ok (true, "sig")) (Except.ok ()) (Except.ok ()) defaultSettings
      (get_market_data (some respMissingPrice)) tradeEntryOne
      = Except.error (PyErr.exception "TypeError"
          "unexpected keyword argument is_simulation") := by
    rw [hmkt]
    simp only [tradeStep, defaultSettings, tradeEntryOne]
    rw [htrig]
    rfl
  refine ⟨rfl, hpnl, htrig, ?_, hstep⟩
  rw [hstep]
  simp

/-- Claim C4. A position with entry_price ≤ 0 is guarded at bot.py lines
95-97: pnl is forced to 0, which with positive take-profit and stop-loss
settings fires no trigger, so the per-position step returns the position
unchanged (it stays OPEN) with no sell attempt and no error. -/
theorem C4_zero_entry_no_trigger (wl : Except PyErr (Option WalletTriple))
    (sb : Except PyErr (Bool × String)) (nr cr : Except PyErr Unit)
    (s : Settings) (m : MarketData) (t : Trade)
    (hentry : t.entry_price ≤ 0) (htp : 0 < s.take_profit)
    (hsl : 0 < s.stop_loss) :
    pnl_pct t.entry_price m.priceUsd = 0
    ∧ sellTrigger s.take_profit s.stop_loss t.entry_price m.priceUsd = false
    ∧ tradeStep wl sb nr cr s (some m) t
        = Except.ok (t, TradeOutcome.noTrigger) := by
  have hp : pnl_pct t.entry_price m.priceUsd = 0 := by
    simp [pnl_pct, not_lt.mpr hentry]
  have hneg : s.stop_loss * (-1) = -s.stop_loss := by ring
  have htrig : sellTrigger s.take_profit s.stop_loss t.entry_price m.priceUsd
      = false := by
    simp only [sellTrigger, hp, hneg, Bool.or_eq_false_iff,
      decide_eq_false_iff_not, not_le, ge_iff_le]
    constructor
    · linarith
    · linarith
  refine ⟨hp, htrig, ?_⟩
  simp [tradeStep, htrig]

/-- Witness for C4: a position recorded with entry price 0 under the
default settings is left untouched by a cycle with a live market price. -/
theorem C4_zero_entry_no_trigger_witness :
    tradeStep (Except.ok none) (Except.ok (true, "sig")) (Except.ok ())
      (Except.ok ()) defaultSettings (some marketDemo) tradeEntryZero
      = Except.ok (tradeEntryZero, TradeOutcome.noTrigger) :=
  (C4_zero_entry_no_trigger (Except.ok none) (Except.ok (true, "sig"))
    (Except.ok ()) (Except.ok ()) defaultSettings marketDemo tradeEntryZero
    (by norm_num [tradeEntryZero]) (by norm_num [defaultSettings])
    (by norm_num [defaultSettings])).2.2

/-- Claim C5. `close_trade` is the SQL update setting status = CLOSED where
id matches: it is idempotent, preserves the number of rows (no duplicate),
never changes a CLOSED row back to OPEN, and leaves every row whose id
matches CLOSED. -/
theorem C5_close_trade_idempotent (ts : List Trade) (tid : Nat) :
    close_trade (close_trade ts tid) tid = close_trade ts tid
    ∧ (close_trade ts tid).length = ts.length
    ∧ (∀ i (h1 : i < ts.length) (h2 : i < (close_trade ts tid).length),
        (ts.get ⟨i, h1⟩).status = TradeStatus.CLOSED →
        ((close_trade ts tid).get ⟨i, h2⟩).status = TradeStatus.CLOSED)
    ∧ (∀ i (h1 : i < ts.length) (h2 : i < (close_trade ts tid).length),
        (ts.get ⟨i, h1⟩).id = tid →
        ((close_trade ts tid).get ⟨i, h2⟩).status = TradeStatus.CLOSED) := by
  refine ⟨?_, by simp [close_trade], ?_, ?_⟩
  · simp only [close_trade, List.map_map]
    apply List.map_congr_left
    intro t _
    by_cases h : t.id = tid <;> simp [Function.comp, h]
  · intro i h1 h2 hst
    simp only [List.get_eq_getElem] at hst
    simp only [close_trade, List.get_eq_getElem, List.getElem_map]
    by_cases h : ts[i].id = tid
    · simp [h]
    · simp [h, hst]
  · intro i h1 h2 hid
    simp only [List.get_eq_getElem] at hid
    simp only [close_trade, List.get_eq_getElem, List.getElem_map]
    simp [hid]

/-- Witness for C5 on a concrete two-row table: closing id 2 twice equals
closing it once, the already-CLOSED row stays CLOSED, and the targeted row
ends CLOSED. -/
theorem C5_close_trade_idempotent_witness :
    close_trade (close_trade demoTrades 2) 2 = close_trade demoTrades 2
    ∧ ((close_trade demoTrades 2).get ⟨0, by decide⟩).status = TradeStatus.CLOSED
    ∧ ((close_trade demoTrades 2).get ⟨1, by decide⟩).status
        = TradeStatus.CLOSED := by
  have h := C5_close_trade_idempotent demoTrades 2
  exact ⟨h.1, h.2.2.1 0 (by decide) (by decide) (by decide),
    h.2.2.2 1 (by decide) (by decide) (by decide)⟩

/-- Claim C6. The spec requires a freshly generated random salt per record,
returned alongside the ciphertext. The code instead feeds the fixed literal
b"sentinel_salt_" to the key derivation on every call of `_get_fernet`, so
any two distinct wallet records share the same salt, and `encrypt_key`
derives its key from the module master password with exactly that constant
salt, returning a token with no salt component. -/
theorem C6_fixed_shared_salt :
    encryptSaltUsed [10] = encryptSaltUsed [20]
    ∧ ([10] : List Nat) ≠ [20]
    ∧ encryptSaltUsed [10] = sentinelSalt
    ∧ (∀ masterPassword iv k, encrypt_key masterPassword iv k
        = fernetEncrypt (pbkdf2Model masterPassword (encryptSaltUsed k) 100000)
            iv k) :=
  ⟨rfl, by decide, rfl, fun _ _ _ => rfl⟩

/-- Claim C7. Round-trip: decrypting the encryption of any private-key byte
string under the same (master) password returns exactly the original key,
because both directions derive the identical Fernet key from the same
password and the same fixed salt. -/
theorem C7_encrypt_decrypt_roundtrip (masterPassword : List Nat) (iv : Nat)
    (k : List Nat) (hbytes : ∀ b ∈ k, b < 256) :
    decrypt_key masterPassword (encrypt_key masterPassword iv k) = some k := by
  simp only [decrypt_key, encrypt_key, fernetDecrypt, fernetEncrypt]
  rw [if_pos trivial]
  exact congrArg some (streamInv_streamXform _ _ 0 k hbytes)

/-- Witness for C7 at a concrete password, IV and key. -/
theorem C7_encrypt_decrypt_roundtrip_witness :
    decrypt_key [5, 6] (encrypt_key [5, 6] 3 [9, 8, 255, 0])
      = some [9, 8, 255, 0] :=
  C7_encrypt_decrypt_roundtrip [5, 6] 3 [9, 8, 255, 0] (by decide)

/-- Claim C8. The spec (and the function's own docstring) says get_sol_price
never returns zero. The code violates this: a provider responding HTTP 200
with price "0" is returned as 0 and cached, after which even the
all-providers-fail path returns 0; only the fresh-cache fallback path
actually yields the hardcoded 150. -/
theorem C8_provider_zero_price_returned :
    (get_sol_price { jup := some 0, coingecko := none } LAST_KNOWN_PRICE_INIT).1
      = 0
    ∧ (get_sol_price { jup := none, coingecko := none }
        (get_sol_price { jup := some 0, coingecko := none }
          LAST_KNOWN_PRICE_INIT).2).1 = 0
    ∧ (get_sol_price { jup := none, coingecko := none }
        LAST_KNOWN_PRICE_INIT).1 = 150 :=
  ⟨rfl, rfl, rfl⟩

/-- Claim C9. One iteration of the monitor loop catches every
Exception-level error raised anywhere in the cycle body (position list read,
price fetch, settings lookup, market fetch, wallet lookup, the failing swap
call, notification send, close write) and continues to the sleep and the
next cycle; only BaseException-level signals, which none of the enumerated
failure kinds are, can terminate the loop. -/
theorem C9_monitor_loop_survives_exceptions (env : CycleEnv)
    (h1 : excLevel env.activeTrades = true)
    (h2 : excLevel env.solPrice = true)
    (h3 : ∀ u, excLevel (env.settingsOf u) = true)
    (h4 : ∀ a, excLevel (env.marketOf a) = true)
    (h5 : ∀ u, excLevel (env.walletOf u) = true)
    (_h6 : excLevel env.swapBody = true)
    (_h7 : ∀ u, excLevel (env.notifyOf u) = true)
    (_h8 : ∀ i, excLevel (env.closeOf i) = true) :
    (monitorIteration env).1 = true := by
  have hall := excLevel_runCycle env h1 h2 h3 h4 h5
  simp only [monitorIteration]
  split
  next heq => rfl
  next k m heq => rfl
  next k m heq =>
    rw [heq] at hall
    exact absurd hall (by simp [excLevel])

/-- Witness for C9: a cycle whose settings lookup raises a database
exception with one open trade still continues to the next cycle. -/
theorem C9_monitor_loop_survives_exceptions_witness :
    (monitorIteration envWithDbError).1 = true :=
  C9_monitor_loop_survives_exceptions envWithDbError rfl rfl (fun _ => rfl)
    (fun _ => rfl) (fun _ => rfl) rfl (fun _ => rfl) (fun _ => rfl)

/-- Claim C10. `get_wallet` returns none exactly when no wallet row exists
or decrypting the stored key fails (the decryption failure is swallowed into
the same none as a missing row, so the caller cannot tell the two apart),
and otherwise returns the triple (user_id, decrypted private key,
public_key). -/
theorem C10_get_wallet_cases (masterPassword : List Nat)
    (row : Option WalletRow) :
    (get_wallet masterPassword row = none ↔
      row = none ∨ ∃ r, row = some r ∧
        decrypt_key masterPassword r.encrypted_private_key = none)
    ∧ (∀ r pk, row = some r →
        decrypt_key masterPassword r.encrypted_private_key = some pk →
        get_wallet masterPassword row = some (r.user_id, pk, r.public_key)) := by
  constructor
  · cases row with
    | none => simp [get_wallet]
    | some r =>
      cases hd : decrypt_key masterPassword r.encrypted_private_key with
      | none => simp [get_wallet, hd]
      | some pk => simp [get_wallet, hd]
  · rintro r pk rfl hd
    simp [get_wallet, hd]

/-- Witness for C10: a stored row whose key decrypts yields the decrypted
triple. -/
theorem C10_get_wallet_cases_witness :
    get_wallet [5, 6] (some walletRowDemo) = some (42, [9, 8], "PubDemo") :=
  (C10_get_wallet_cases [5, 6] (some walletRowDemo)).2 walletRowDemo [9, 8]
    rfl (by decide)

end SolanaBot
